import Mathlib

/-!
Shallow embedding of the youtube-transcript-mcp-server core, translated from
`simple_server.py` and `src/youtube_transcript_mcp/utils.py`.

JSON values parsed by `json.loads` are modelled by the inductive `Json`;
Python numbers are modelled by `ℚ` (the rational semantics of the arithmetic
the code performs on times); fallible Python code (statements that may raise)
is modelled by `Except String`, the string being `str(e)` of the raised
exception.  The external caption provider (`transcript_manager.get_transcript`,
backed by the third-party youtube_transcript_api package) is an abstract
parameter of type `Provider`; the second component of `call_tool`'s result
records whether that provider was invoked.
-/

/-- A JSON value as produced by `json.loads`: objects keep key order, which is
what Python dicts and `json.dumps` preserve. -/
inductive Json where
  | null : Json
  | bool (b : Bool) : Json
  | num (q : ℚ) : Json
  | str (s : String) : Json
  | arr (elems : List Json) : Json
  | obj (fields : List (String × Json)) : Json

/-- Python `dict.get(k)` on a parsed JSON object: `none` models the key being
absent (Python `None` via the default). -/
def dictGet (kvs : List (String × Json)) (k : String) : Option Json :=
  (kvs.find? (fun kv => kv.1 = k)).map (fun kv => kv.2)

/-- Python `x == "s"` where `x` is a value recovered from JSON (possibly the
absent-key `None`): true exactly when `x` is that very string. -/
def methodIs (m : Option Json) (s : String) : Bool :=
  match m with
  | some (Json.str x) => x = s
  | _ => false

/-- Python truthiness of a parsed JSON value (`if not x`). -/
def pyTruthy : Json → Bool
  | Json.null => false
  | Json.bool b => b
  | Json.num q => q ≠ 0
  | Json.str s => s ≠ ""
  | Json.arr xs => !xs.isEmpty
  | Json.obj kvs => !kvs.isEmpty

/-- The Python type name of a parsed JSON value, as it appears in
`AttributeError`/`TypeError` messages. -/
def pyTypeName : Json → String
  | Json.null => "NoneType"
  | Json.bool _ => "bool"
  | Json.num _ => "float"
  | Json.str _ => "str"
  | Json.arr _ => "list"
  | Json.obj _ => "dict"

/-- `str(e)` for the `AttributeError` raised by `x.get(...)` on a non-dict. -/
def attrGetMsg (j : Json) : String :=
  "'" ++ pyTypeName j ++ "' object has no attribute 'get'"

/-- Decimal rendering used for numbers inside rendered Python values.  CPython
prints the `repr` of the underlying float; the model renders the rational
directly (integral rationals print as integers). -/
def dumpsNum (q : ℚ) : String :=
  if q.den = 1 then toString q.num
  else toString q.num ++ "/" ++ toString q.den

mutual

/-- Python `repr` of a parsed JSON value (string escaping inside nested
values is elided: no claim inspects it). -/
def pyRepr : Json → String
  | Json.null => "None"
  | Json.bool b => if b then "True" else "False"
  | Json.num q => dumpsNum q
  | Json.str s => "'" ++ s ++ "'"
  | Json.arr xs => "[" ++ pyReprList xs ++ "]"
  | Json.obj kvs => "\x7b" ++ pyReprObj kvs ++ "\x7d"

/-- Comma-separated `repr` of list elements. -/
def pyReprList : List Json → String
  | [] => ""
  | [x] => pyRepr x
  | x :: y :: xs => pyRepr x ++ ", " ++ pyReprList (y :: xs)

/-- Comma-separated `repr` of dict entries. -/
def pyReprObj : List (String × Json) → String
  | [] => ""
  | [kv] => "'" ++ kv.1 ++ "': " ++ pyRepr kv.2
  | kv :: kw :: kvs => "'" ++ kv.1 ++ "': " ++ pyRepr kv.2 ++ ", " ++ pyReprObj (kw :: kvs)

end

/-- Python `str()` of a parsed JSON value, as interpolated by f-strings. -/
def pyStr (j : Json) : String :=
  match j with
  | Json.str s => s
  | _ => pyRepr j

/-! ## Video-ID extractor (`utils.extract_video_id`)

The four `re` patterns are embedded as explicit backtracking matchers over
`List Char`, preserving Python's leftmost-match (`re.search`) and greedy
alternation/backtracking order.  No `re.IGNORECASE` flag appears in the
source, so every literal is matched case-sensitively. -/

/-- A character of the class `[a-zA-Z0-9_-]`. -/
def isIdChar (c : Char) : Bool :=
  c.isAlpha || c.isDigit || c = '_' || c = '-'

/-- Match a literal prefix, returning the rest of the input. -/
def stripLit : List Char → List Char → Option (List Char)
  | [], cs => some cs
  | _ :: _, [] => none
  | l :: ls, c :: cs => if l = c then stripLit ls cs else none

/-- The capture group `([a-zA-Z0-9_-]{11})`: exactly eleven class characters. -/
def takeId11 (cs : List Char) : Option String :=
  let pre := cs.take 11
  if pre.length = 11 && pre.all isIdChar then some (String.mk pre) else none

/-- The alternatives of `(?:https?://)?` at the current position, in the
order regex backtracking tries them (greedy `s?`, then the absent case). -/
def schemeAlts (cs : List Char) : List (List Char) :=
  (match stripLit "https://".data cs with | some r => [r] | none => []) ++
  (match stripLit "http://".data cs with | some r => [r] | none => []) ++ [cs]

/-- The alternatives of `(?:www\.)?` at the current position. -/
def wwwAlts (cs : List Char) : List (List Char) :=
  (match stripLit "www.".data cs with | some r => [r] | none => []) ++ [cs]

/-- A literal core followed by the eleven-character capture group. -/
def matchCore (lit : String) (cs : List Char) : Option String :=
  match stripLit lit.data cs with
  | some rest => takeId11 rest
  | none => none

/-- Pattern `(?:https?://)?(?:www\.)?youtube\.com/watch\?v=([a-zA-Z0-9_-]{11})`
tried at one position. -/
def matchAt1 (cs : List Char) : Option String :=
  (schemeAlts cs).findSome? fun cs1 =>
    (wwwAlts cs1).findSome? fun cs2 => matchCore "youtube.com/watch?v=" cs2

/-- Pattern `(?:https?://)?youtu\.be/([a-zA-Z0-9_-]{11})` tried at one
position. -/
def matchAt2 (cs : List Char) : Option String :=
  (schemeAlts cs).findSome? fun cs1 => matchCore "youtu.be/" cs1

/-- Pattern `(?:https?://)?(?:www\.)?youtube\.com/embed/([a-zA-Z0-9_-]{11})`
tried at one position. -/
def matchAt3 (cs : List Char) : Option String :=
  (schemeAlts cs).findSome? fun cs1 =>
    (wwwAlts cs1).findSome? fun cs2 => matchCore "youtube.com/embed/" cs2

/-- The tail `v=([a-zA-Z0-9_-]{11})` of the fourth pattern. -/
def matchVeq (cs : List Char) : Option String := matchCore "v=" cs

/-- Greedy `.*` (never consuming a newline) followed by `v=` and the capture,
longest consumption tried first as regex backtracking does. -/
def dotStarThen : List Char → Option String
  | [] => matchVeq []
  | c :: cs =>
    if c = '\n' then matchVeq (c :: cs)
    else
      match dotStarThen cs with
      | some g => some g
      | none => matchVeq (c :: cs)

/-- Pattern `(?:https?://)?(?:www\.)?youtube\.com/watch\?.*v=([a-zA-Z0-9_-]{11})`
tried at one position. -/
def matchAt4 (cs : List Char) : Option String :=
  (schemeAlts cs).findSome? fun cs1 =>
    (wwwAlts cs1).findSome? fun cs2 =>
      match stripLit "youtube.com/watch?".data cs2 with
      | some rest => dotStarThen rest
      | none => none

/-- `re.search`: try the pattern at each position, leftmost first. -/
def reSearch (f : List Char → Option String) : List Char → Option String
  | [] => f []
  | c :: cs =>
    match f (c :: cs) with
    | some g => some g
    | none => reSearch f cs

/-- The check `re.match(r'^[a-zA-Z0-9_-]{11}$', url_or_id)`.  Python's `$`
also matches just before a single newline at the very end of the string, so a
twelve-character input ending in a newline passes this test too. -/
def matchesFullId (s : String) : Bool :=
  (s.data.length = 11 && s.data.all isIdChar) ||
  (s.data.length = 12 && (s.data.take 11).all isIdChar && s.data.getLast? = some '\n')

/-- `utils.extract_video_id`: the full-ID test first (returning the input
itself unchanged), then the four `re.search` patterns in source order. -/
def extract_video_id (url_or_id : String) : Option String :=
  if url_or_id = "" then none
  else if matchesFullId url_or_id then some url_or_id
  else
    match reSearch matchAt1 url_or_id.data with
    | some g => some g
    | none =>
      match reSearch matchAt2 url_or_id.data with
      | some g => some g
      | none =>
        match reSearch matchAt3 url_or_id.data with
        | some g => some g
        | none => reSearch matchAt4 url_or_id.data

example : extract_video_id "https://www.youtube.com/watch?v=dQw4w9WgXcQ" = some "dQw4w9WgXcQ" := by decide
example : extract_video_id "https://youtu.be/dQw4w9WgXcQ" = some "dQw4w9WgXcQ" := by decide
example : extract_video_id "https://www.youtube.com/embed/dQw4w9WgXcQ" = some "dQw4w9WgXcQ" := by decide
example : extract_video_id "dQw4w9WgXcQ" = some "dQw4w9WgXcQ" := by decide
example : extract_video_id "not a url" = none := by decide
example : extract_video_id "https://www.youtube.com/watch?list=PL123&v=dQw4w9WgXcQ" = some "dQw4w9WgXcQ" := by decide

/-! ## Transcript data model and formatter (`utils.format_transcript_output`) -/

/-- One timed caption line (`snippet.text`, `snippet.start`,
`snippet.duration`); times are modelled by `ℚ`. -/
structure CaptionSnippet where
  text : String
  start : ℚ
  duration : ℚ
deriving DecidableEq, Repr

/-- A fetched transcript: the attributes of the provider's
`FetchedTranscript` that the formatter reads, iteration yielding `snippets`
in order. -/
structure Transcript where
  video_id : String
  language : String
  language_code : String
  is_generated : Bool
  snippets : List CaptionSnippet
deriving DecidableEq, Repr

/-- Python floor-mod on rationals: `a % b = a - b * (a // b)` with the sign
of the divisor, which is what `float.__mod__` computes. -/
def pyFloorMod (a b : ℚ) : ℚ := a - b * (⌊a / b⌋ : ℤ)

/-- Python `f"{n:0wd}"`: zero-pad the decimal to at least `w` characters,
the sign (if any) leading the pad. -/
def pyPad (w : Nat) (n : ℤ) : String :=
  let digits := toString n.natAbs
  let pad := String.mk (List.replicate (w - digits.length - (if n < 0 then 1 else 0)) '0')
  (if n < 0 then "-" else "") ++ pad ++ digits

/-- `utils.seconds_to_srt_time`: `int(s // 3600)`, `int((s % 3600) // 60)`,
`int(s % 60)`, `int((s % 1) * 1000)` — every `int()` here truncates a
nonnegative (or already integral) value, i.e. floors. -/
def seconds_to_srt_time (seconds : ℚ) : String :=
  let hours : ℤ := ⌊seconds / 3600⌋
  let minutes : ℤ := ⌊pyFloorMod seconds 3600 / 60⌋
  let secs : ℤ := ⌊pyFloorMod seconds 60⌋
  let millisecs : ℤ := ⌊pyFloorMod seconds 1 * 1000⌋
  pyPad 2 hours ++ ":" ++ pyPad 2 minutes ++ ":" ++ pyPad 2 secs ++ "," ++ pyPad 3 millisecs

/-- `utils.seconds_to_vtt_time`: identical but with a dot before the
milliseconds. -/
def seconds_to_vtt_time (seconds : ℚ) : String :=
  let hours : ℤ := ⌊seconds / 3600⌋
  let minutes : ℤ := ⌊pyFloorMod seconds 3600 / 60⌋
  let secs : ℤ := ⌊pyFloorMod seconds 60⌋
  let millisecs : ℤ := ⌊pyFloorMod seconds 1 * 1000⌋
  pyPad 2 hours ++ ":" ++ pyPad 2 minutes ++ ":" ++ pyPad 2 secs ++ "." ++ pyPad 3 millisecs

/-- Python `f"{x:.2f}"` on the model's rationals: round to two decimals and
print with exactly two fractional digits.  (CPython rounds the underlying
double to even on exact ties; no claim depends on tie behaviour.) -/
def formatFixed2 (q : ℚ) : String :=
  let n : ℤ := round (q * 100)
  let whole := n.natAbs / 100
  let frac := n.natAbs % 100
  (if n < 0 then "-" else "") ++ toString whole ++ "." ++ pyPad 2 (frac : ℤ)

/-- The dict built by the `json` branch (source lines 94–107), keys in
insertion order, snippets mapped in order. -/
def transcriptJsonData (t : Transcript) : Json :=
  Json.obj
    [("video_id", Json.str t.video_id),
     ("language", Json.str t.language),
     ("language_code", Json.str t.language_code),
     ("is_generated", Json.bool t.is_generated),
     ("transcript", Json.arr (t.snippets.map fun sn =>
        Json.obj [("text", Json.str sn.text),
                  ("start", Json.num sn.start),
                  ("duration", Json.num sn.duration)]))]

/-- JSON string escaping as `json.dumps(..., ensure_ascii=False)` performs
it: only the quote, backslash and control characters are escaped, everything
else (including non-ASCII) passes through literally. -/
def escapeChar (c : Char) : String :=
  if c = '"' then "\\\""
  else if c = '\\' then "\\\\"
  else if c = '\n' then "\\n"
  else if c = '\t' then "\\t"
  else if c = '\r' then "\\r"
  else if c.toNat < 32 then
    "\\u" ++ pyPad 4 (c.toNat : ℤ)
  else String.mk [c]

/-- A serialized JSON string literal. -/
def escapeStr (s : String) : String :=
  "\"" ++ String.join (s.data.map escapeChar) ++ "\""

mutual

/-- `json.dumps(data, indent=2, ensure_ascii=False)`: two-space indentation,
`": "` between key and value, `","` plus newline between items. -/
def dumps : Nat → Json → String
  | _, Json.null => "null"
  | _, Json.bool b => if b then "true" else "false"
  | _, Json.num q => dumpsNum q
  | _, Json.str s => escapeStr s
  | _, Json.arr [] => "[]"
  | lvl, Json.arr (x :: xs) =>
      "[\n" ++ dumpsArr (lvl + 2) (x :: xs) ++ "\n" ++ String.mk (List.replicate lvl ' ') ++ "]"
  | _, Json.obj [] => "\x7b\x7d"
  | lvl, Json.obj (kv :: kvs) =>
      "\x7b\n" ++ dumpsObj (lvl + 2) (kv :: kvs) ++ "\n" ++ String.mk (List.replicate lvl ' ') ++ "\x7d"

/-- Array items, indented one level deeper. -/
def dumpsArr : Nat → List Json → String
  | _, [] => ""
  | lvl, [x] => String.mk (List.replicate lvl ' ') ++ dumps lvl x
  | lvl, x :: y :: xs =>
      String.mk (List.replicate lvl ' ') ++ dumps lvl x ++ ",\n" ++ dumpsArr lvl (y :: xs)

/-- Object entries, indented one level deeper. -/
def dumpsObj : Nat → List (String × Json) → String
  | _, [] => ""
  | lvl, [kv] => String.mk (List.replicate lvl ' ') ++ escapeStr kv.1 ++ ": " ++ dumps lvl kv.2
  | lvl, kv :: kw :: kvs =>
      String.mk (List.replicate lvl ' ') ++ escapeStr kv.1 ++ ": " ++ dumps lvl kv.2 ++ ",\n" ++
        dumpsObj lvl (kw :: kvs)

end

/-- The `srt` branch: `enumerate(transcript, 1)` appending four lines per
snippet — sequence number, time range with `end = start + duration`, text,
and an empty line. -/
def srtLines : Nat → List CaptionSnippet → List String
  | _, [] => []
  | i, sn :: rest =>
    toString i ::
      (seconds_to_srt_time sn.start ++ " --> " ++ seconds_to_srt_time (sn.start + sn.duration)) ::
      sn.text :: "" :: srtLines (i + 1) rest

/-- The `vtt` branch body: a time range, the text, and an empty line per
snippet. -/
def vttLines : List CaptionSnippet → List String
  | [] => []
  | sn :: rest =>
    (seconds_to_vtt_time sn.start ++ " --> " ++ seconds_to_vtt_time (sn.start + sn.duration)) ::
      sn.text :: "" :: vttLines rest

/-- `utils.format_transcript_output`: the four format branches in source
order, joined with `"\n"`, and the `ValueError` (modelled as `Except.error`)
for any other selector. -/
def format_transcript_output (t : Transcript) (format_type : String) : Except String String :=
  if format_type = "json" then
    Except.ok (dumps 0 (transcriptJsonData t))
  else if format_type = "text" then
    Except.ok (String.intercalate "\n"
      (t.snippets.map fun sn => "[" ++ formatFixed2 sn.start ++ "s] " ++ sn.text))
  else if format_type = "srt" then
    Except.ok (String.intercalate "\n" (srtLines 1 t.snippets))
  else if format_type = "vtt" then
    Except.ok (String.intercalate "\n" ("WEBVTT" :: "" :: vttLines t.snippets))
  else
    Except.error ("Unsupported format type: " ++ format_type)

example : seconds_to_srt_time 3661.5 = "01:01:01,500" := by
  rw [seconds_to_srt_time, pyFloorMod, pyFloorMod, pyFloorMod]
  norm_num
  rfl

/-! ## Request dispatcher (`simple_server.py`)

`handle_request` and `call_tool` are translated statement-for-statement.
A raised exception is `Except.error (str e)`; in particular `request["id"]`
on a request without an `id` key raises `KeyError('id')`, whose `str` is
`"'id'"`, and `.get` on a non-dict raises `AttributeError`. -/

/-- The external caption provider (`transcript_manager.get_transcript`):
given the raw `video_id` and `languages` argument values it either returns a
transcript or raises (the message already wrapped by the manager). -/
abbrev Provider := Json → Json → Except String Transcript

/-- The ToolResult envelope `{"content": [{"type": "text", "text": ...}],
"isError": ...}`. -/
def toolResult (text : String) (isErr : Bool) : Json :=
  Json.obj
    [("content", Json.arr [Json.obj [("type", Json.str "text"), ("text", Json.str text)]]),
     ("isError", Json.bool isErr)]

/-- `str(e)` of the `TypeError` raised by `re.match` on a non-string. -/
def reMatchTypeMsg (j : Json) : String :=
  "expected string or bytes-like object, got '" ++ pyTypeName j ++ "'"

/-- `SimpleYouTubeTranscriptServer.call_tool`.  The second component records
whether the external caption provider was invoked.  The outermost
`try/except` converts any unanticipated exception into an
`"Unexpected error: ..."` ToolResult, so this function never raises. -/
def call_tool (p : Provider) (name : Json) (arguments : Json) : Json × Bool :=
  if methodIs (some name) "extract_video_id" then
    match arguments with
    | Json.obj akvs =>
      let url_or_id := (dictGet akvs "url_or_id").getD (Json.str "")
      match url_or_id with
      | Json.str s =>
        match extract_video_id s with
        | none =>
          (toolResult ("Error: Could not extract valid video ID from '" ++ s ++ "'") true, false)
        | some vid => (toolResult ("Video ID: " ++ vid) false, false)
      | other =>
        if pyTruthy other then
          (toolResult ("Unexpected error: " ++ reMatchTypeMsg other) true, false)
        else
          (toolResult ("Error: Could not extract valid video ID from '" ++ pyStr other ++ "'")
            true, false)
    | other => (toolResult ("Unexpected error: " ++ attrGetMsg other) true, false)
  else if methodIs (some name) "get_video_transcript" then
    match arguments with
    | Json.obj akvs =>
      let video_id := (dictGet akvs "video_id").getD (Json.str "")
      let languages := (dictGet akvs "languages").getD (Json.arr [Json.str "en"])
      let format_type := (dictGet akvs "format").getD (Json.str "text")
      if pyTruthy video_id = false then
        (toolResult "Error: video_id is required" true, false)
      else
        match p video_id languages with
        | Except.error e => (toolResult ("Error getting transcript: " ++ e) true, true)
        | Except.ok t =>
          match format_type with
          | Json.str f =>
            match format_transcript_output t f with
            | Except.ok s => (toolResult s false, true)
            | Except.error e => (toolResult ("Error getting transcript: " ++ e) true, true)
          | other =>
            (toolResult ("Error getting transcript: Unsupported format type: " ++ pyStr other)
              true, true)
    | other => (toolResult ("Unexpected error: " ++ attrGetMsg other) true, false)
  else (toolResult ("Unknown tool: " ++ pyStr name) true, false)

/-- A successful JSON-RPC response, keys in the source's insertion order. -/
def mkResponse (i : Json) (result : Json) : Json :=
  Json.obj [("jsonrpc", Json.str "2.0"), ("id", i), ("result", result)]

/-- The `-32601` protocol-level error response of the final `else` branch. -/
def methodNotFoundResponse (i : Json) : Json :=
  Json.obj
    [("jsonrpc", Json.str "2.0"), ("id", i),
     ("error", Json.obj [("code", Json.num (-32601)), ("message", Json.str "Method not found")])]

/-- The static `initialize` result object. -/
def initResult : Json :=
  Json.obj
    [("protocolVersion", Json.str "2024-11-05"),
     ("capabilities", Json.obj [("tools", Json.obj [])]),
     ("serverInfo", Json.obj
        [("name", Json.str "youtube-transcript-mcp"), ("version", Json.str "1.0.0")])]

/-- One tool descriptor of the static catalog. -/
def toolDescriptor (nm descr : String) (schema : Json) : Json :=
  Json.obj [("name", Json.str nm), ("description", Json.str descr), ("inputSchema", schema)]

/-- The static catalog `self.tools` of the two tool descriptors. -/
def toolsCatalog : Json :=
  Json.arr
    [toolDescriptor "extract_video_id"
       "Extract YouTube video ID from a URL or return the ID if already provided"
       (Json.obj
          [("type", Json.str "object"),
           ("properties", Json.obj
              [("url_or_id", Json.obj
                  [("type", Json.str "string"),
                   ("description", Json.str "YouTube URL or video ID")])]),
           ("required", Json.arr [Json.str "url_or_id"])]),
     toolDescriptor "get_video_transcript" "Download transcript for a YouTube video"
       (Json.obj
          [("type", Json.str "object"),
           ("properties", Json.obj
              [("video_id", Json.obj
                  [("type", Json.str "string"),
                   ("description", Json.str "YouTube video ID")]),
               ("languages", Json.obj
                  [("type", Json.str "array"),
                   ("items", Json.obj [("type", Json.str "string")]),
                   ("description", Json.str
                      "List of preferred language codes (e.g., ['en', 'zh-TW', 'es'])"),
                   ("default", Json.arr [Json.str "en"])]),
               ("format", Json.obj
                  [("type", Json.str "string"),
                   ("enum", Json.arr
                      [Json.str "json", Json.str "text", Json.str "srt", Json.str "vtt"]),
                   ("description", Json.str "Output format"),
                   ("default", Json.str "text")])]),
           ("required", Json.arr [Json.str "video_id"])])]

/-- `SimpleYouTubeTranscriptServer.handle_request` on a request that parsed
to a JSON object.  `Except.ok none` is the notification case (`return None`);
`Except.error msg` models an exception escaping the method (there is no
`try` inside it): `KeyError('id')` from `request["id"]`, or `AttributeError`
from `params.get(...)` when `params` is not a dict.  Note `request["id"]` in
the `tools/call` branch is evaluated after `call_tool` has run. -/
def handle_request (p : Provider) (req : List (String × Json)) : Except String (Option Json) :=
  let method := dictGet req "method"
  if methodIs method "notifications/initialized" then Except.ok none
  else if methodIs method "initialize" then
    match dictGet req "id" with
    | none => Except.error "'id'"
    | some i => Except.ok (some (mkResponse i initResult))
  else if methodIs method "tools/list" then
    match dictGet req "id" with
    | none => Except.error "'id'"
    | some i => Except.ok (some (mkResponse i (Json.obj [("tools", toolsCatalog)])))
  else if methodIs method "tools/call" then
    match (dictGet req "params").getD (Json.obj []) with
    | Json.obj pkvs =>
      let tool_name := (dictGet pkvs "name").getD Json.null
      let arguments := (dictGet pkvs "arguments").getD (Json.obj [])
      let result := (call_tool p tool_name arguments).1
      match dictGet req "id" with
      | none => Except.error "'id'"
      | some i => Except.ok (some (mkResponse i result))
    | other => Except.error (attrGetMsg other)
  else
    match dictGet req "id" with
    | none => Except.error "'id'"
    | some i => Except.ok (some (methodNotFoundResponse i))

/-! ## Main loop (`main`)

One input line is modelled by the outcome of `json.loads(line.strip())`:
`Except.error msg` for malformed JSON, `Except.ok v` for a parsed value.
The `request` local persists across iterations; the `except` block's
best-effort id recovery `request.get("id") if 'request' in locals() else
None` itself raises `AttributeError` when `request` is bound to a non-dict,
and that second exception is uncaught: the loop crashes. -/

/-- The `-32603` error response emitted by the `except` block. -/
def loopErrorResponse (i : Json) (msg : String) : Json :=
  Json.obj
    [("jsonrpc", Json.str "2.0"), ("id", i),
     ("error", Json.obj [("code", Json.num (-32603)), ("message", Json.str msg)])]

/-- The id the `except` block recovers: `some i` when the recovery succeeds
(`none` when it raises, crashing the loop). `Json.null` models Python `None`. -/
def recoveredId : Option Json → Option Json
  | none => some Json.null
  | some (Json.obj kvs) => some ((dictGet kvs "id").getD Json.null)
  | some _ => none

/-- Process one line: the emitted output lines, the new `request` binding,
and whether the loop crashed on this line. -/
def stepLine (p : Provider) (binding : Option Json) (l : Except String Json) :
    List Json × Option Json × Bool :=
  match l with
  | Except.error msg =>
    match recoveredId binding with
    | some i => ([loopErrorResponse i msg], binding, false)
    | none => ([], binding, true)
  | Except.ok v =>
    match v with
    | Json.obj kvs =>
      match handle_request p kvs with
      | Except.ok none => ([], some v, false)
      | Except.ok (some resp) => ([resp], some v, false)
      | Except.error msg =>
        ([loopErrorResponse ((dictGet kvs "id").getD Json.null) msg], some v, false)
    | _ => ([], some v, true)

/-- The `while True` loop over the remaining input lines: all emitted output
lines in order, and whether the loop crashed (terminating before the input
was exhausted). -/
def runLoop (p : Provider) : Option Json → List (Except String Json) → List Json × Bool
  | _, [] => ([], false)
  | b, l :: ls =>
    match stepLine p b l with
    | (out, _, true) => (out, true)
    | (out, b', false) =>
      match runLoop p b' ls with
      | (outs, c) => (out ++ outs, c)

/-- A provider with no transcripts, used to instantiate closed statements. -/
def noProvider : Provider := fun _ _ => Except.error "no transcript available"

/-! ## Specification-side definitions

These follow the wording of the specification's claims (not the source) and
exist to be compared with the source-translated definitions above. -/

/-- The spec's invariant shape for an extracted identifier: exactly eleven
characters, all drawn from `[A-Za-z0-9_-]`. -/
def validId11 (s : String) : Bool :=
  s.data.length = 11 && s.data.all isIdChar

/-- Time rendering as the claim words it: total milliseconds by truncation,
then zero-padded `HH:MM:SS,mmm` components. -/
def srtTimeSpec (s : ℚ) : String :=
  let total : ℤ := ⌊s * 1000⌋
  pyPad 2 (total / 3600000) ++ ":" ++ pyPad 2 (total % 3600000 / 60000) ++ ":" ++
    pyPad 2 (total % 60000 / 1000) ++ "," ++ pyPad 3 (total % 1000)

/-- One SRT entry as the claim describes it: the sequence number on its own
line, `start --> end` with `end = start + duration`, the text line, and a
blank line. -/
def srtEntrySpec (k : Nat) (sn : CaptionSnippet) : List String :=
  [toString k,
   srtTimeSpec sn.start ++ " --> " ++ srtTimeSpec (sn.start + sn.duration),
   sn.text, ""]

/-- The SRT entries of a snippet list with contiguous numbering from `k`. -/
def srtLinesSpec (k : Nat) : List CaptionSnippet → List String
  | [] => []
  | sn :: rest => srtEntrySpec k sn ++ srtLinesSpec (k + 1) rest

/-- Decode one snippet object back out of the JSON value. -/
def decodeSnippet (j : Json) : Option CaptionSnippet :=
  match j with
  | Json.obj kvs =>
    match dictGet kvs "text", dictGet kvs "start", dictGet kvs "duration" with
    | some (Json.str t), some (Json.num s), some (Json.num d) =>
      some { text := t, start := s, duration := d }
    | _, _, _ => none
  | _ => none

/-- Decode a list of snippet objects, in order. -/
def decodeSnippets : List Json → Option (List CaptionSnippet)
  | [] => some []
  | j :: js =>
    match decodeSnippet j, decodeSnippets js with
    | some sn, some sns => some (sn :: sns)
    | _, _ => none

/-- Decode the `json` format's top-level object back into a transcript. -/
def decodeTranscriptJson (j : Json) : Option Transcript :=
  match j with
  | Json.obj kvs =>
    match dictGet kvs "video_id", dictGet kvs "language", dictGet kvs "language_code",
        dictGet kvs "is_generated", dictGet kvs "transcript" with
    | some (Json.str v), some (Json.str l), some (Json.str lc),
        some (Json.bool g), some (Json.arr items) =>
      match decodeSnippets items with
      | some sns =>
        some { video_id := v, language := l, language_code := lc,
               is_generated := g, snippets := sns }
      | none => none
    | _, _, _, _, _ => none
  | _ => none

/-- Whether an `Except` result is a success. -/
def isOkE : Except String String → Bool
  | Except.ok _ => true
  | Except.error _ => false

/-- Whether the dispatcher raised. -/
def raisedE : Except String (Option Json) → Bool
  | Except.error _ => true
  | Except.ok _ => false

/-- The exception message of a dispatcher outcome (`""` when none was
raised). -/
def raisedMsg : Except String (Option Json) → String
  | Except.error m => m
  | Except.ok _ => ""

/-- The `error.code` field of a response object, when present. -/
def errCodeOf (j : Json) : Option Json :=
  match j with
  | Json.obj kvs =>
    match dictGet kvs "error" with
    | some (Json.obj ekvs) => dictGet ekvs "code"
    | _ => none
  | _ => none

/-- A sample transcript used to instantiate closed statements. -/
def sampleTranscript : Transcript :=
  { video_id := "dQw4w9WgXcQ", language := "English", language_code := "en",
    is_generated := false,
    snippets := [{ text := "hello", start := 0, duration := 2 },
                 { text := "world", start := 2, duration := 3 }] }

/-! ## Claims -/

/-- C4: the claim says every non-NotFound result of `extract_video_id` is an
eleven-character string over `[A-Za-z0-9_-]`.  The code violates it: because
Python's `$` also matches before a trailing newline, the full-ID branch
accepts the twelve-character input `"abcdefghijk\n"` and returns it
unchanged, newline included. -/
theorem extract_video_id_newline_violation :
    extract_video_id "abcdefghijk\n" = some "abcdefghijk\n" ∧
    validId11 "abcdefghijk\n" = false := by
  exact ⟨by decide, by decide⟩

/-- C6: `format_transcript_output` succeeds for each of the four supported
selectors and fails with the `Unsupported format type` error for every other
selector; being a pure function of its arguments, it is deterministic by
construction. -/
theorem format_transcript_output_total (t : Transcript) (f : String) :
    (f ∈ ["json", "text", "srt", "vtt"] → isOkE (format_transcript_output t f) = true) ∧
    (f ∉ ["json", "text", "srt", "vtt"] →
      format_transcript_output t f = Except.error ("Unsupported format type: " ++ f)) := by
  constructor
  · intro hf
    simp only [List.mem_cons, List.not_mem_nil, or_false] at hf
    rcases hf with h | h | h | h <;> subst h <;> rfl
  · intro hf
    simp only [List.mem_cons, List.not_mem_nil, or_false, not_or] at hf
    obtain ⟨h1, h2, h3, h4⟩ := hf
    simp [format_transcript_output, h1, h2, h3, h4]

/-- Witness for C6 at a concrete transcript and selectors. -/
theorem format_transcript_output_total_witness :
    isOkE (format_transcript_output sampleTranscript "srt") = true ∧
    format_transcript_output sampleTranscript "xml" =
      Except.error ("Unsupported format type: " ++ "xml") :=
  ⟨(format_transcript_output_total sampleTranscript "srt").1 (by decide),
   (format_transcript_output_total sampleTranscript "xml").2 (by decide)⟩

/-- C9: a `get_video_transcript` call whose `video_id` argument is missing
or empty returns the `isError` ToolResult with exactly
`"Error: video_id is required"`, and the provider-invoked flag is `false`:
the external caption provider is not called. -/
theorem get_video_transcript_requires_id (p : Provider) (akvs : List (String × Json))
    (h : dictGet akvs "video_id" = none ∨ dictGet akvs "video_id" = some (Json.str "")) :
    call_tool p (Json.str "get_video_transcript") (Json.obj akvs) =
      (toolResult "Error: video_id is required" true, false) := by
  have hv : (dictGet akvs "video_id").getD (Json.str "") = Json.str "" := by
    rcases h with h | h <;> simp [h]
  simp [call_tool, methodIs, hv, pyTruthy]

/-- Witness for C9 at a concrete empty argument object. -/
theorem get_video_transcript_requires_id_witness :
    call_tool noProvider (Json.str "get_video_transcript") (Json.obj []) =
      (toolResult "Error: video_id is required" true, false) :=
  get_video_transcript_requires_id noProvider [] (Or.inl rfl)

/-- A dispatcher exception turns into exactly one `-32603` line and the loop
goes on with the rest of the input. -/
theorem runLoop_dispatch_error (p : Provider) (req : List (String × Json)) (msg : String)
    (h : handle_request p req = Except.error msg) (b : Option Json)
    (ls : List (Except String Json)) :
    runLoop p b (Except.ok (Json.obj req) :: ls) =
      (loopErrorResponse ((dictGet req "id").getD Json.null) msg ::
         (runLoop p (some (Json.obj req)) ls).1,
       (runLoop p (some (Json.obj req)) ls).2) := by
  simp [runLoop, stepLine, h]

/-- C10 counterexample: a `tools/call` request with no `id` does not get a
successful response — `request["id"]` raises `KeyError` (after `call_tool`
already ran) and the loop emits a `-32603` protocol error instead. -/
theorem tools_call_no_id_counterexample :
    handle_request noProvider [("method", Json.str "tools/call")] = Except.error "'id'" ∧
    runLoop noProvider none [Except.ok (Json.obj [("method", Json.str "tools/call")])] =
      ([loopErrorResponse Json.null "'id'"], false) :=
  ⟨rfl, rfl⟩

/-- C10 amended: for a `tools/call` request that has an `id`, absent params
or params lacking a `name` entry still yield a successful response whose
result is the `isError` ToolResult `"Unknown tool: None"`. -/
theorem tools_call_unknown_tool_none (p : Provider) (req : List (String × Json)) (i : Json)
    (hm : dictGet req "method" = some (Json.str "tools/call"))
    (hid : dictGet req "id" = some i)
    (hp : dictGet req "params" = none ∨
          ∃ pkvs, dictGet req "params" = some (Json.obj pkvs) ∧ dictGet pkvs "name" = none) :
    handle_request p req =
      Except.ok (some (mkResponse i (toolResult "Unknown tool: None" true))) := by
  have hcall : ∀ args, call_tool p Json.null args = (toolResult "Unknown tool: None" true, false) :=
    fun _ => rfl
  have e1 : dictGet ([] : List (String × Json)) "name" = none := rfl
  rcases hp with hp | ⟨pkvs, hp, hname⟩
  · simp [handle_request, hm, methodIs, hp, hid, hcall, e1, Option.getD_none]
  · simp [handle_request, hm, methodIs, hp, hid, hname, hcall, Option.getD_none]

/-- Witness for C10's amended theorem at a concrete request. -/
theorem tools_call_unknown_tool_none_witness :
    handle_request noProvider [("method", Json.str "tools/call"), ("id", Json.num 3)] =
      Except.ok (some (mkResponse (Json.num 3) (toolResult "Unknown tool: None" true))) :=
  tools_call_unknown_tool_none noProvider _ _ rfl rfl (Or.inl rfl)

/-- C2 counterexample: an unknown method on a request with no `id` does not
produce the claimed `-32601` response with a null `id`; the dispatcher
raises `KeyError('id')` and the loop emits a `-32603` error. -/
theorem method_not_found_no_id_counterexample :
    handle_request noProvider [("method", Json.str "foo/bar")] = Except.error "'id'" ∧
    runLoop noProvider none [Except.ok (Json.obj [("method", Json.str "foo/bar")])] =
      ([loopErrorResponse Json.null "'id'"], false) ∧
    errCodeOf (loopErrorResponse Json.null "'id'") = some (Json.num (-32603)) :=
  ⟨rfl, rfl, rfl⟩

/-- C2 amended: when the request does carry an `id` and its method is none
of the four recognized ones, the dispatcher returns the `-32601`
`"Method not found"` error response echoing that `id`. -/
theorem method_not_found_echoes_id (p : Provider) (req : List (String × Json)) (i : Json)
    (hid : dictGet req "id" = some i)
    (h1 : methodIs (dictGet req "method") "notifications/initialized" = false)
    (h2 : methodIs (dictGet req "method") "initialize" = false)
    (h3 : methodIs (dictGet req "method") "tools/list" = false)
    (h4 : methodIs (dictGet req "method") "tools/call" = false) :
    handle_request p req = Except.ok (some (methodNotFoundResponse i)) := by
  simp [handle_request, h1, h2, h3, h4, hid]

/-- Witness for C2's amended theorem at a concrete request. -/
theorem method_not_found_echoes_id_witness :
    handle_request noProvider [("method", Json.str "foo/bar"), ("id", Json.num 7)] =
      Except.ok (some (methodNotFoundResponse (Json.num 7))) :=
  method_not_found_echoes_id noProvider _ _ rfl rfl rfl rfl rfl

/-- C1 counterexample: a request lacking `id` whose method is `tools/list`
is a notification by the claim's definition, yet the loop emits an output
line for it (the dispatcher's `request["id"]` raises and the `except` block
prints a `-32603` response). -/
theorem notification_output_counterexample :
    runLoop noProvider none [Except.ok (Json.obj [("method", Json.str "tools/list")])] =
      ([loopErrorResponse Json.null "'id'"], false) ∧
    ([loopErrorResponse Json.null "'id'"] : List Json) ≠ [] :=
  ⟨rfl, by simp⟩

/-- C1 amended: a request with method `notifications/initialized` produces
no response and no output line; but for every other method, a request
lacking `id` makes the dispatcher raise, and the loop emits exactly one
`-32603` error line (with `id` null) for it. -/
theorem notification_no_response (p : Provider) (req : List (String × Json))
    (hid : dictGet req "id" = none) :
    (methodIs (dictGet req "method") "notifications/initialized" = true →
       handle_request p req = Except.ok none ∧
       runLoop p none [Except.ok (Json.obj req)] = ([], false)) ∧
    (methodIs (dictGet req "method") "notifications/initialized" = false →
       raisedE (handle_request p req) = true ∧
       runLoop p none [Except.ok (Json.obj req)] =
         ([loopErrorResponse Json.null (raisedMsg (handle_request p req))], false)) := by
  constructor
  · intro h
    have hh : handle_request p req = Except.ok none := by
      simp [handle_request, h]
    exact ⟨hh, by simp [runLoop, stepLine, hh]⟩
  · intro h
    have hh : ∃ msg, handle_request p req = Except.error msg := by
      rw [handle_request]
      simp only [h, if_false, Bool.false_eq_true]
      by_cases h2 : methodIs (dictGet req "method") "initialize" = true
      · simp only [h2, if_true, hid]
        exact ⟨_, rfl⟩
      · simp only [eq_false_of_ne_true h2, if_false, Bool.false_eq_true]
        by_cases h3 : methodIs (dictGet req "method") "tools/list" = true
        · simp only [h3, if_true, hid]
          exact ⟨_, rfl⟩
        · simp only [eq_false_of_ne_true h3, if_false, Bool.false_eq_true]
          by_cases h4 : methodIs (dictGet req "method") "tools/call" = true
          · simp only [h4, if_true]
            match (dictGet req "params").getD (Json.obj []) with
            | Json.obj pkvs => simp only [hid]; exact ⟨_, rfl⟩
            | Json.null => exact ⟨_, rfl⟩
            | Json.bool b => exact ⟨_, rfl⟩
            | Json.num q => exact ⟨_, rfl⟩
            | Json.str s => exact ⟨_, rfl⟩
            | Json.arr xs => exact ⟨_, rfl⟩
          · simp only [eq_false_of_ne_true h4, if_false, Bool.false_eq_true, hid]
            exact ⟨_, rfl⟩
    obtain ⟨msg, hmsg⟩ := hh
    refine ⟨by simp [raisedE, hmsg], ?_⟩
    have := runLoop_dispatch_error p req msg hmsg none []
    simpa [hid, hmsg, raisedMsg, runLoop] using this

/-- Witness for C1's amended theorem: the notification branch at the
concrete `notifications/initialized` request. -/
theorem notification_no_response_witness :
    handle_request noProvider [("method", Json.str "notifications/initialized")] =
      Except.ok none ∧
    runLoop noProvider none
        [Except.ok (Json.obj [("method", Json.str "notifications/initialized")])] =
      ([], false) :=
  (notification_no_response noProvider [("method", Json.str "notifications/initialized")]
    rfl).1 rfl

/-- C3 counterexample: the line `5` is valid JSON, so its processing failure
(`request.get('method')` raising `AttributeError`) happens with `request`
bound to a non-dict; the `except` block's own `request.get("id")` then
raises again, so the loop emits nothing for the failing line and terminates
— the following well-formed request is never read. -/
theorem loop_crash_counterexample :
    runLoop noProvider none
        [Except.ok (Json.num 5),
         Except.ok (Json.obj [("method", Json.str "initialize"), ("id", Json.num 1)])] =
      ([], true) :=
  rfl

/-- C3 amended: whenever the `except` block's best-effort id recovery is
defined (the `request` local is unbound or bound to a dict — in particular
for every malformed-JSON line), a failing line produces exactly one `-32603`
error response carrying the failure message, and the loop continues with the
remaining lines; the same holds for a dispatcher exception on a parsed
object.  (A line whose JSON parses to a non-object instead crashes the
loop, as the counterexample shows.) -/
theorem per_line_error_recovery (p : Provider) (b : Option Json) (i : Json)
    (hrec : recoveredId b = some i) (msg : String) (ls : List (Except String Json)) :
    (runLoop p b (Except.error msg :: ls) =
       (loopErrorResponse i msg :: (runLoop p b ls).1, (runLoop p b ls).2)) ∧
    (∀ req msg2, handle_request p req = Except.error msg2 →
       runLoop p b (Except.ok (Json.obj req) :: ls) =
         (loopErrorResponse ((dictGet req "id").getD Json.null) msg2 ::
            (runLoop p (some (Json.obj req)) ls).1,
          (runLoop p (some (Json.obj req)) ls).2)) ∧
    errCodeOf (loopErrorResponse i msg) = some (Json.num (-32603)) := by
  refine ⟨?_, ?_, rfl⟩
  · simp [runLoop, stepLine, hrec]
  · intro req msg2 h
    exact runLoop_dispatch_error p req msg2 h b ls

/-- Witness for C3's amended theorem: one malformed-JSON line recovered with
a null id, the loop finishing normally. -/
theorem per_line_error_recovery_witness :
    runLoop noProvider none [Except.error "Expecting value: line 1 column 1 (char 0)"] =
      ([loopErrorResponse Json.null "Expecting value: line 1 column 1 (char 0)"], false) := by
  have h := (per_line_error_recovery noProvider none Json.null rfl
    "Expecting value: line 1 column 1 (char 0)" []).1
  simpa [runLoop] using h

/-- Helper for C8: decoding the encoded snippet list gives back the original
snippets in order. -/
theorem decodeSnippets_map (sns : List CaptionSnippet) :
    decodeSnippets (sns.map fun sn =>
      Json.obj [("text", Json.str sn.text), ("start", Json.num sn.start),
                ("duration", Json.num sn.duration)]) = some sns := by
  induction sns with
  | nil => rfl
  | cons sn rest ih => simp [decodeSnippets, decodeSnippet, dictGet, ih]

/-- C8: the `json` format emits exactly the serialized top-level object
built by the code, and decoding that object recovers the transcript's
video id, language, language code, generated flag and full snippet list
(text/start/duration), in order.  (The `json.dumps`/decode pair of the
Python standard library is taken as a faithful serialization of the JSON
value itself.) -/
theorem json_format_roundtrip (t : Transcript) :
    format_transcript_output t "json" = Except.ok (dumps 0 (transcriptJsonData t)) ∧
    decodeTranscriptJson (transcriptJsonData t) = some t := by
  refine ⟨rfl, ?_⟩
  simp [decodeTranscriptJson, transcriptJsonData, dictGet, decodeSnippets_map]

/-- Dividing under the floor by a positive natural commutes with taking the
integer floor first. -/
theorem floor_div_nat_q (a : ℚ) (d : ℕ) (hd : 0 < d) : ⌊a / (d : ℚ)⌋ = ⌊a⌋ / (d : ℤ) := by
  have hdq : (0:ℚ) < (d:ℚ) := by exact_mod_cast hd
  have hdz : (0:ℤ) < (d:ℤ) := by exact_mod_cast hd
  have h1 : ∀ z : ℤ, z ≤ ⌊a / (d:ℚ)⌋ ↔ z ≤ ⌊a⌋ / (d:ℤ) := by
    intro z
    rw [Int.le_floor, le_div_iff₀ hdq, Int.le_ediv_iff_mul_le hdz, Int.le_floor]
    push_cast
    rfl
  exact le_antisymm ((h1 _).mp le_rfl) ((h1 _).mpr le_rfl)

/-- Total-milliseconds division recovers the floor of the seconds quotient. -/
theorem floorms_div (s : ℚ) (d : ℕ) (hd : 0 < d) :
    ⌊s * 1000⌋ / (1000 * (d : ℤ)) = ⌊s / (d : ℚ)⌋ := by
  have h := floor_div_nat_q (s * 1000) (1000 * d) (by positivity)
  have harg : (s * 1000) / ((1000 * d : ℕ) : ℚ) = s / d := by
    push_cast
    rw [mul_comm s 1000, mul_div_mul_left _ _ (by norm_num : (1000:ℚ) ≠ 0)]
  rw [harg] at h
  have hc : ((1000 * d : ℕ) : ℤ) = 1000 * (d : ℤ) := by push_cast; ring
  rw [← hc]
  exact h.symm

/-- Total-milliseconds remainder is the floored milliseconds of the Python
floor-mod. -/
theorem floorms_mod (s : ℚ) (d : ℕ) (hd : 0 < d) :
    ⌊s * 1000⌋ % (1000 * (d : ℤ)) = ⌊pyFloorMod s d * 1000⌋ := by
  rw [Int.emod_def, floorms_div s d hd, pyFloorMod]
  have e : (s - (d:ℚ) * (⌊s / (d:ℚ)⌋ : ℤ)) * 1000 =
      s * 1000 - ((1000 * (d:ℤ)) * ⌊s / (d:ℚ)⌋ : ℤ) := by
    push_cast
    ring
  rw [e, Int.floor_sub_int]

/-- The source's float-mod time conversion renders exactly the claim's
truncated zero-padded components. -/
theorem seconds_to_srt_time_eq_spec (s : ℚ) : seconds_to_srt_time s = srtTimeSpec s := by
  have hH := floorms_div s 3600 (by norm_num)
  have hM2 := floorms_div (pyFloorMod s 3600) 60 (by norm_num)
  have hS2 := floorms_div (pyFloorMod s 60) 1 (by norm_num)
  have hmod3600 := floorms_mod s 3600 (by norm_num)
  have hmod60 := floorms_mod s 60 (by norm_num)
  have hmod1 := floorms_mod s 1 (by norm_num)
  norm_num at hH hM2 hS2 hmod3600 hmod60 hmod1
  simp only [seconds_to_srt_time, srtTimeSpec]
  rw [hH, hmod3600, hM2, hmod60, hS2, hmod1]

/-- The source's SRT line construction equals the claim-side entry list for
any starting sequence number. -/
theorem srtLines_eq_spec (k : Nat) (l : List CaptionSnippet) :
    srtLines k l = srtLinesSpec k l := by
  induction l generalizing k with
  | nil => rfl
  | cons sn rest ih =>
    simp [srtLines, srtLinesSpec, srtEntrySpec, seconds_to_srt_time_eq_spec, ih]

/-- Each snippet contributes exactly four lines. -/
theorem srtLinesSpec_length (k : Nat) (l : List CaptionSnippet) :
    (srtLinesSpec k l).length = 4 * l.length := by
  induction l generalizing k with
  | nil => rfl
  | cons sn rest ih =>
    simp [srtLinesSpec, srtEntrySpec, ih]
    ring

/-- C7: the `srt` output is the newline-join of exactly one four-line entry
per snippet, in snippet order, with contiguous 1-based sequence numbers, the
time line `start --> end` where `end = start + duration`, both times
rendered as zero-padded `HH:MM:SS,mmm` with truncated components, then the
text line and a blank line. -/
theorem srt_format_structure (t : Transcript) :
    format_transcript_output t "srt" =
      Except.ok (String.intercalate "\n" (srtLinesSpec 1 t.snippets)) ∧
    (srtLinesSpec 1 t.snippets).length = 4 * t.snippets.length := by
  constructor
  · show Except.ok (String.intercalate "\n" (srtLines 1 t.snippets)) = _
    rw [srtLines_eq_spec]
  · exact srtLinesSpec_length 1 t.snippets

/-- A literal containing a character outside the id class never matches
inside a run of id-class characters. -/
theorem stripLit_all_id (lit : List Char) (cs : List Char)
    (hbad : ∃ c ∈ lit, isIdChar c = false) (hcs : cs.all isIdChar = true) :
    stripLit lit cs = none := by
  induction lit generalizing cs with
  | nil => simp at hbad
  | cons l ls ih =>
    cases cs with
    | nil => rfl
    | cons c cs' =>
      simp only [stripLit]
      by_cases hlc : l = c
      · subst hlc
        simp only [if_pos rfl]
        simp only [List.all_cons, Bool.and_eq_true] at hcs
        obtain ⟨hcid, htail⟩ := hcs
        rcases hbad with ⟨b, hb, hbid⟩
        rcases List.mem_cons.mp hb with rfl | hbls
        · rw [hcid] at hbid; cases hbid
        · exact ih cs' ⟨b, hbls, hbid⟩ htail
      · simp [if_neg hlc]

/-- On id-class input both scheme alternatives fail, leaving only the
empty alternative. -/
theorem schemeAlts_all_id (cs : List Char) (h : cs.all isIdChar = true) :
    schemeAlts cs = [cs] := by
  have h1 : stripLit "https://".data cs = none :=
    stripLit_all_id _ _ ⟨':', by decide, by decide⟩ h
  have h2 : stripLit "http://".data cs = none :=
    stripLit_all_id _ _ ⟨':', by decide, by decide⟩ h
  simp [schemeAlts, h1, h2]

/-- On id-class input the `www.` alternative fails. -/
theorem wwwAlts_all_id (cs : List Char) (h : cs.all isIdChar = true) :
    wwwAlts cs = [cs] := by
  have h1 : stripLit "www.".data cs = none :=
    stripLit_all_id _ _ ⟨'.', by decide, by decide⟩ h
  simp [wwwAlts, h1]

/-- A core literal containing a non-id character fails on id-class input. -/
theorem matchCore_all_id (lit : String) (hbad : ∃ c ∈ lit.data, isIdChar c = false)
    (cs : List Char) (h : cs.all isIdChar = true) : matchCore lit cs = none := by
  simp [matchCore, stripLit_all_id _ _ hbad h]

/-- Pattern 1 cannot match at a position whose suffix is all id-class. -/
theorem matchAt1_all_id (cs : List Char) (h : cs.all isIdChar = true) : matchAt1 cs = none := by
  simp [matchAt1, schemeAlts_all_id cs h, wwwAlts_all_id cs h,
        matchCore_all_id "youtube.com/watch?v=" ⟨'.', by decide, by decide⟩ cs h]

/-- Pattern 2 cannot match at a position whose suffix is all id-class. -/
theorem matchAt2_all_id (cs : List Char) (h : cs.all isIdChar = true) : matchAt2 cs = none := by
  simp [matchAt2, schemeAlts_all_id cs h,
        matchCore_all_id "youtu.be/" ⟨'.', by decide, by decide⟩ cs h]

/-- Pattern 3 cannot match at a position whose suffix is all id-class. -/
theorem matchAt3_all_id (cs : List Char) (h : cs.all isIdChar = true) : matchAt3 cs = none := by
  simp [matchAt3, schemeAlts_all_id cs h, wwwAlts_all_id cs h,
        matchCore_all_id "youtube.com/embed/" ⟨'.', by decide, by decide⟩ cs h]

/-- Pattern 4 cannot match at a position whose suffix is all id-class. -/
theorem matchAt4_all_id (cs : List Char) (h : cs.all isIdChar = true) : matchAt4 cs = none := by
  have hcore : stripLit "youtube.com/watch?".data cs = none :=
    stripLit_all_id _ _ ⟨'.', by decide, by decide⟩ h
  simp [matchAt4, schemeAlts_all_id cs h, wwwAlts_all_id cs h, hcore]

/-- Searching an all-id-class string with a matcher that fails on such
strings finds nothing. -/
theorem reSearch_all_id (f : List Char → Option String)
    (hf : ∀ cs, cs.all isIdChar = true → f cs = none) :
    ∀ cs, cs.all isIdChar = true → reSearch f cs = none := by
  intro cs
  induction cs with
  | nil => intro _; simp [reSearch, hf [] rfl]
  | cons c cs' ih =>
    intro h
    have h' := h
    simp only [List.all_cons, Bool.and_eq_true] at h'
    simp [reSearch, hf _ h, ih h'.2]

/-- A search fails on `pre ++ tail` when it fails at every position inside
`pre` and on `tail` itself. -/
theorem reSearch_append_none (f : List Char → Option String) (pre tail : List Char)
    (htail : reSearch f tail = none)
    (hpre : ∀ n, n < pre.length → f (pre.drop n ++ tail) = none) :
    reSearch f (pre ++ tail) = none := by
  induction pre with
  | nil => simpa using htail
  | cons c pre' ih =>
    have h0 : f (c :: (pre' ++ tail)) = none := by
      have := hpre 0 (by simp)
      simpa using this
    simp only [List.append_eq, List.cons_append, reSearch, h0]
    exact ih (fun n hn => by
      have := hpre (n + 1) (by simpa using Nat.succ_lt_succ hn)
      simpa using this)

/-- A match at the current position wins immediately. -/
theorem reSearch_found (f : List Char → Option String) (cs : List Char) (g : String)
    (h : f cs = some g) : reSearch f cs = some g := by
  cases cs <;> simp [reSearch, h]

/-- A search that fails at every position inside `pre` and succeeds at
`tail` returns that later match. -/
theorem reSearch_append_found (f : List Char → Option String) (pre tail : List Char) (g : String)
    (hpre : ∀ n, n < pre.length → f (pre.drop n ++ tail) = none)
    (hf : f tail = some g) :
    reSearch f (pre ++ tail) = some g := by
  induction pre with
  | nil => simpa using reSearch_found f tail g hf
  | cons c pre' ih =>
    have h0 : f (c :: (pre' ++ tail)) = none := by
      have := hpre 0 (by simp)
      simpa using this
    simp only [List.append_eq, List.cons_append, reSearch, h0]
    exact ih (fun n hn => by
      have := hpre (n + 1) (by simpa using Nat.succ_lt_succ hn)
      simpa using this)

/-- The capture group consumes a valid eleven-character id exactly. -/
theorem takeId11_exact (v : String) (hlen : v.data.length = 11)
    (hall : v.data.all isIdChar = true) : takeId11 v.data = some v := by
  have htake : v.data.take 11 = v.data := List.take_of_length_le (le_of_eq hlen)
  simp only [takeId11, htake, hlen, hall]
  cases v
  simp


/-- C5 amended: for every valid eleven-character id the scheme may change
case freely — the optional scheme is simply skipped and `re.search` finds
the bare `youtu.be/` core later in the string — but the host (and the id)
are matched case-sensitively: upper-casing the host makes extraction fail. -/
theorem extract_scheme_case_insensitive_host_sensitive (v : String) (hv : validId11 v = true) :
    extract_video_id ("https://youtu.be/" ++ v) = some v ∧
    extract_video_id ("HTTPS://youtu.be/" ++ v) = some v ∧
    extract_video_id ("https://YOUTU.BE/" ++ v) = none := by
  obtain ⟨hlen, hall⟩ : v.data.length = 11 ∧ v.data.all isIdChar = true := by
    simpa [validId11] using hv
  have htake : takeId11 v.data = some v := takeId11_exact v hlen hall
  refine ⟨?_, ?_, ?_⟩
  · -- lower-case URL: pattern 2 matches after pattern 1 finds nothing
    have hdata : ("https://youtu.be/" ++ v).data = "https://youtu.be/".data ++ v.data := by
      simp [String.data_append]
    have hne : (("https://youtu.be/" ++ v) = "") = False := by
      refine eq_false fun h => ?_
      have h2 := congrArg String.data h
      rw [hdata] at h2
      simp at h2
    have hfull : matchesFullId ("https://youtu.be/" ++ v) = false := by
      simp [matchesFullId, hdata, hlen]
    have hs1 : reSearch matchAt1 (("https://youtu.be/" ++ v).data) = none := by
      rw [hdata]
      apply reSearch_append_none _ _ _ (reSearch_all_id _ matchAt1_all_id v.data hall)
      intro n hn
      rw [show ("https://youtu.be/".data).length = 17 from rfl] at hn
      interval_cases n <;> rfl
    have hs2 : reSearch matchAt2 (("https://youtu.be/" ++ v).data) = some v := by
      rw [hdata]
      exact reSearch_found _ _ _ (by simp [matchAt2, schemeAlts, matchCore, stripLit, htake])
    simp only [extract_video_id, hne, if_false, hfull, Bool.false_eq_true, hs1, hs2]
  · -- upper-case scheme: the optional scheme never matches, but the search
    -- finds the bare youtu.be core eight characters in
    have hdata : ("HTTPS://youtu.be/" ++ v).data = "HTTPS://youtu.be/".data ++ v.data := by
      simp [String.data_append]
    have hsplit : ("HTTPS://youtu.be/" ++ v).data =
        "HTTPS://".data ++ ("youtu.be/".data ++ v.data) := by
      rw [hdata]; rfl
    have hne : (("HTTPS://youtu.be/" ++ v) = "") = False := by
      refine eq_false fun h => ?_
      have h2 := congrArg String.data h
      rw [hdata] at h2
      simp at h2
    have hfull : matchesFullId ("HTTPS://youtu.be/" ++ v) = false := by
      simp [matchesFullId, hdata, hlen]
    have hs1 : reSearch matchAt1 (("HTTPS://youtu.be/" ++ v).data) = none := by
      rw [hdata]
      apply reSearch_append_none _ _ _ (reSearch_all_id _ matchAt1_all_id v.data hall)
      intro n hn
      rw [show ("HTTPS://youtu.be/".data).length = 17 from rfl] at hn
      interval_cases n <;> rfl
    have hs2 : reSearch matchAt2 (("HTTPS://youtu.be/" ++ v).data) = some v := by
      rw [hsplit]
      apply reSearch_append_found
      · intro n hn
        rw [show ("HTTPS://".data).length = 8 from rfl] at hn
        interval_cases n <;> rfl
      · simp [matchAt2, schemeAlts, matchCore, stripLit, htake]
    simp only [extract_video_id, hne, if_false, hfull, Bool.false_eq_true, hs1, hs2]
  · -- upper-case host: nothing matches anywhere
    have hdata : ("https://YOUTU.BE/" ++ v).data = "https://YOUTU.BE/".data ++ v.data := by
      simp [String.data_append]
    have hne : (("https://YOUTU.BE/" ++ v) = "") = False := by
      refine eq_false fun h => ?_
      have h2 := congrArg String.data h
      rw [hdata] at h2
      simp at h2
    have hfull : matchesFullId ("https://YOUTU.BE/" ++ v) = false := by
      simp [matchesFullId, hdata, hlen]
    have hs1 : reSearch matchAt1 (("https://YOUTU.BE/" ++ v).data) = none := by
      rw [hdata]
      apply reSearch_append_none _ _ _ (reSearch_all_id _ matchAt1_all_id v.data hall)
      intro n hn
      rw [show ("https://YOUTU.BE/".data).length = 17 from rfl] at hn
      interval_cases n <;> rfl
    have hs2 : reSearch matchAt2 (("https://YOUTU.BE/" ++ v).data) = none := by
      rw [hdata]
      apply reSearch_append_none _ _ _ (reSearch_all_id _ matchAt2_all_id v.data hall)
      intro n hn
      rw [show ("https://YOUTU.BE/".data).length = 17 from rfl] at hn
      interval_cases n <;> rfl
    have hs3 : reSearch matchAt3 (("https://YOUTU.BE/" ++ v).data) = none := by
      rw [hdata]
      apply reSearch_append_none _ _ _ (reSearch_all_id _ matchAt3_all_id v.data hall)
      intro n hn
      rw [show ("https://YOUTU.BE/".data).length = 17 from rfl] at hn
      interval_cases n <;> rfl
    have hs4 : reSearch matchAt4 (("https://YOUTU.BE/" ++ v).data) = none := by
      rw [hdata]
      apply reSearch_append_none _ _ _ (reSearch_all_id _ matchAt4_all_id v.data hall)
      intro n hn
      rw [show ("https://YOUTU.BE/".data).length = 17 from rfl] at hn
      interval_cases n <;> rfl
    simp only [extract_video_id, hne, if_false, hfull, Bool.false_eq_true, hs1, hs2, hs3, hs4]

/-- C5 counterexample: the claim asserts host case-insensitivity, but the
same URL accepted in lower case is rejected with its host upper-cased (the
patterns carry no `re.IGNORECASE`). -/
theorem scheme_host_case_counterexample :
    extract_video_id "https://youtu.be/dQw4w9WgXcQ" = some "dQw4w9WgXcQ" ∧
    extract_video_id "https://YOUTU.BE/dQw4w9WgXcQ" = none :=
  ⟨by decide, by decide⟩

/-- Witness for C5's amended theorem at a concrete id. -/
theorem extract_scheme_case_witness :
    extract_video_id ("https://youtu.be/" ++ "dQw4w9WgXcQ") = some "dQw4w9WgXcQ" ∧
    extract_video_id ("HTTPS://youtu.be/" ++ "dQw4w9WgXcQ") = some "dQw4w9WgXcQ" ∧
    extract_video_id ("https://YOUTU.BE/" ++ "dQw4w9WgXcQ") = none :=
  extract_scheme_case_insensitive_host_sensitive "dQw4w9WgXcQ" (by decide)
